import Mathlib

/-!
Shallow embedding of the Alegra → SharePoint ETL scripts
(`src/core/sharepoint_connector.py`, `src/core/sharepoint_uploader.py`,
`src/ingresos/*.py`, `src/historicos/pagos_historico.py`, `src/items/items.py`).

Python JSON-like values are modelled by `PyVal`; `PyVal.null` is Python's
`None`.  Dictionaries are association lists keyed by strings (the scripts
only use string keys).
-/

inductive PyVal where
  | null : PyVal
  | bool (b : Bool) : PyVal
  | int (n : Int) : PyVal
  | str (s : String) : PyVal
  | list (xs : List PyVal) : PyVal
  | dict (fs : List (String × PyVal)) : PyVal

mutual

/-- Structural equality test on `PyVal` (Python `==` on JSON-like data). -/
def PyVal.beq : PyVal → PyVal → Bool
  | .null, .null => true
  | .bool a, .bool b => a == b
  | .int a, .int b => a == b
  | .str a, .str b => a == b
  | .list xs, .list ys => PyVal.beqList xs ys
  | .dict xs, .dict ys => PyVal.beqDict xs ys
  | _, _ => false

def PyVal.beqList : List PyVal → List PyVal → Bool
  | [], [] => true
  | x :: xs, y :: ys => PyVal.beq x y && PyVal.beqList xs ys
  | _, _ => false

def PyVal.beqDict : List (String × PyVal) → List (String × PyVal) → Bool
  | [], [] => true
  | (k, v) :: xs, (l, w) :: ys => k == l && PyVal.beq v w && PyVal.beqDict xs ys
  | _, _ => false

end

/-- `d[k]` membership-aware lookup on a Python dict body. -/
def pyGet (fs : List (String × PyVal)) (k : String) : Option PyVal :=
  (fs.find? (fun p => p.1 == k)).map (·.2)

/-- Python `dict.get(k, d)` on a dict body. -/
def pyGetD (fs : List (String × PyVal)) (k : String) (d : PyVal) : PyVal :=
  (pyGet fs k).getD d

/-- Python truthiness (`bool(v)`), restricted to the value shapes we model. -/
def PyVal.truthy : PyVal → Bool
  | .null => false
  | .bool b => b
  | .int n => n != 0
  | .str s => s != ""
  | .list xs => !xs.isEmpty
  | .dict fs => !fs.isEmpty

def PyVal.isNull : PyVal → Bool
  | .null => true
  | _ => false

/-!
## `safe_get_nested`

`src/ingresos/facturas_venta.py` lines 347-354 (the same code appears in
`src/ingresos/pagos_ingresos.py` lines 136-143 and as the method
`SincronizadorAlegra.safe_get_nested`, lines 1144-1151):

    def safe_get_nested(obj, *keys, default=''):
        for key in keys:
            if isinstance(obj, dict) and key in obj and obj[key] is not None:
                obj = obj[key]
            else:
                return default
        return obj if obj is not None else default
-/

def safe_get_nested (obj : PyVal) (keys : List String) (default : PyVal) : PyVal :=
  match keys with
  | [] => if obj.isNull then default else obj
  | k :: ks =>
    match obj with
    | .dict fs =>
      match pyGet fs k with
      | some v => if v.isNull then default else safe_get_nested v ks default
      | Option.none => default
    | _ => default

/-- Spec-side predicate: every step of the key path goes through a dict that
contains the key with a non-`None` value (and the value reached is non-`None`). -/
def nestedPathOk : PyVal → List String → Bool
  | obj, [] => !obj.isNull
  | .dict fs, k :: ks =>
    match pyGet fs k with
    | some v => !v.isNull && nestedPathOk v ks
    | Option.none => false
  | _, _ :: _ => false

/-- Spec-side value: the nested value down the key path (junk off the path). -/
def nestedValue : PyVal → List String → PyVal
  | obj, [] => obj
  | .dict fs, k :: ks =>
    match pyGet fs k with
    | some v => nestedValue v ks
    | Option.none => .null
  | _, _ :: _ => .null

/-!
## Python string helpers

`str.strip()` with no argument removes leading and trailing whitespace;
`urlparse(...).path.strip("/")` removes leading and trailing slashes.
Both are instances of stripping a character class from both ends.
-/

/-- Whitespace characters stripped by Python's `str.strip()` (ASCII range). -/
def isPySpace (c : Char) : Bool :=
  c == ' ' || c == '\t' || c == '\n' || c == '\x0d' || c == '\x0b' || c == '\x0c'

/-- Strip characters satisfying `p` from both ends of a character list. -/
def pyStripChars (p : Char → Bool) (s : List Char) : List Char :=
  ((s.dropWhile p).reverse.dropWhile p).reverse

/-- Python `s.strip()` on a string. -/
def pyStrip (s : String) : String :=
  ⟨pyStripChars isPySpace s.toList⟩

/-- Python `s.strip("/")` on a string. -/
def pyStripSlash (s : String) : String :=
  ⟨pyStripChars (fun c => c == '/') s.toList⟩

/-!
## Rate-limited fetch with retry (claim C2)

`src/historicos/pagos_historico.py` lines 56-84, `obtener_pagos_por_fecha`:
issues a GET; on 200 returns the JSON body, on 429 sleeps 2 seconds and
calls itself again, on any other status (or exception) returns `[]`.
The environment is modelled as the finite list of responses the server
would give to the successive requests; `Option.none` means the modelled
response trace was exhausted while the code was still retrying.
The result pairs the number of HTTP requests issued with the returned value.
-/

structure HttpResp where
  status : Nat
  body : PyVal

def obtener_pagos_por_fecha : List HttpResp → Option (Nat × PyVal)
  | [] => Option.none
  | r :: rest =>
    if r.status = 200 then some (1, r.body)
    else if r.status = 429 then
      (obtener_pagos_por_fecha rest).map (fun p => (p.1 + 1, p.2))
    else some (1, .list [])

/-!
## Lookup-field variation probing (claim C1)

`src/ingresos/facturas_venta.py` lines 551-592 (`send_item_factura_sharepoint`)
and `src/ingresos/sincronizador_alegra_sharepoint.py` lines 1106-1138
(`crear_item_factura_sharepoint`).  Both POST the same row once per candidate
lookup-field spelling, in the fixed order below, and stop at the first
response with status 201.  The remote is modelled as a map from the candidate
field name used in the POST body to the response it elicits.
-/

def lookup_variations : List String :=
  ["Factura_x0020_de_x0020_VentaLookupId",
   "Factura_x0020_de_x0020_Venta",
   "FacturadeVentaLookupId",
   "FacturadeVenta"]

structure PostResp where
  status : Nat
  body : List (String × PyVal)

/-- The probing loop of `crear_item_factura_sharepoint` (sincronizador):
returns `(success, candidates actually POSTed, in order)`. -/
def probeLookups (post : String → PostResp) : List String → Bool × List String
  | [] => (false, [])
  | f :: rest =>
    if (post f).status = 201 then (true, [f])
    else
      let r := probeLookups post rest
      (r.1, f :: r.2)

/-- `crear_item_factura_sharepoint`: `True` exactly when some probed candidate
was accepted (the function body returns `True` on the first 201 and falls
through to `False`). -/
def crear_item_factura_sharepoint (post : String → PostResp) : Bool :=
  (probeLookups post lookup_variations).1

/-- `send_item_factura_sharepoint` (facturas_venta): on the first 201 it
returns `created_item.get('id')`; if no candidate is accepted it returns
`None` (modelled as `PyVal.null`). -/
def send_item_factura_sharepoint (post : String → PostResp) : PyVal :=
  go lookup_variations
where
  go : List String → PyVal
  | [] => .null
  | f :: rest =>
    if (post f).status = 201 then pyGetD (post f).body "id" .null
    else go rest

/-!
## List-item create operations (claims C6 and C7)

`crear_pago_sharepoint` (`src/ingresos/sincronizador_alegra_sharepoint.py`
lines 976-1037): fetches a token, the site id and the list id (one network
round-trip each, on EVERY call), returns `False` when the list id cannot be
resolved, then POSTs the item and returns `True` exactly on status 201.

`send_factura_sharepoint` (`src/ingresos/facturas_venta.py` lines 483-539):
same shape, but on 201 extracts the created item's id from the response body
(`'id'`, then `fields['id']`, then `fields['ID']`) and returns it; every
other outcome returns `None`.  A Python exception anywhere in the body is
caught and also produces `None`, so `PyVal.null` models both.
-/

inductive NetEv where
  | fetchToken : NetEv
  | fetchSite : NetEv
  | fetchList : NetEv
  | postItem (status : Nat) : NetEv
deriving DecidableEq

/-- `crear_pago_sharepoint`: the network events it performs and its result.
`listId` is what `get_list_id` resolves to; `resp` the POST's response. -/
def crear_pago_sharepoint (listId : Option String) (resp : PostResp) :
    List NetEv × Bool :=
  match listId with
  | Option.none => ([.fetchToken, .fetchSite, .fetchList], false)
  | some _ =>
    ([.fetchToken, .fetchSite, .fetchList, .postItem resp.status],
     resp.status = 201)

/-- The id-extraction chain of `send_factura_sharepoint` on a 201 body. -/
def extract_created_id (body : List (String × PyVal)) : PyVal :=
  match pyGet body "id" with
  | some v => v
  | Option.none =>
    match pyGet body "fields" with
    | some (.dict fs) =>
      match pyGet fs "id" with
      | some v => v
      | Option.none =>
        match pyGet fs "ID" with
        | some v => v
        | Option.none => .null
    | _ => .null

def send_factura_sharepoint (listId : Option String) (resp : PostResp) : PyVal :=
  match listId with
  | Option.none => .null
  | some _ => if resp.status = 201 then extract_created_id resp.body else .null

/-!
## The uploader's token/site-id cache (claim C7)

`SharePointUploader.__init__` sets `self._token = None`, `self._site_id = None`;
`_get_auth_info` (`src/core/sharepoint_uploader.py` lines 47-54):

    if not self._token or not self._site_id:
        self._token = self.sp_connector.get_azure_token()
        self._site_id = self.sp_connector.get_site_id(self._token, self.site_url)
    return self._token, self._site_id

`fetchTok n` / `fetchSite n` give the value the n-th actual fetch would
return (so fetches may differ over time); the state carries the two cached
fields and the count of fetches performed so far.
-/

structure UploaderState where
  tok : Option String
  site : Option String

def truthyStr : Option String → Bool
  | some s => s != ""
  | Option.none => false

def get_auth_info (fetchTok fetchSite : Nat → String) (s : UploaderState)
    (n : Nat) : (String × String) × UploaderState × Nat :=
  if truthyStr s.tok && truthyStr s.site then
    ((s.tok.getD "", s.site.getD ""), s, n)
  else
    let t := fetchTok n
    let si := fetchSite n
    ((t, si), ⟨some t, some si⟩, n + 1)

/-- A fresh `SharePointUploader` making `k` successive `_get_auth_info` calls:
final state, total fetch count, and the list of returned pairs. -/
def runAuthCalls (fetchTok fetchSite : Nat → String) :
    Nat → UploaderState × Nat × List (String × String)
  | 0 => (⟨Option.none, Option.none⟩, 0, [])
  | k + 1 =>
    let acc := runAuthCalls fetchTok fetchSite k
    let step := get_auth_info fetchTok fetchSite acc.1 acc.2.1
    (step.2.1, step.2.2, acc.2.2 ++ [step.1])

/-!
## The resource resolver (claim C8)

`src/core/sharepoint_connector.py`.

`parse_site_url` (lines 40-45) uses `urlparse` and strips `/` from both ends
of the path; a URL is modelled as its parsed hostname and raw path.

`get_site_id` (lines 47-59) GETs
`/v1.0/sites/{hostname}:/{path}?$select=id`, calls `raise_for_status()`
(which raises for any status in 400..599), reads `response.json()["id"]`
(raising `KeyError` when absent), and the `except` block logs and RE-raises.
`Except.error` models a raised exception, `oracle = Option.none` a network
error from `requests.get` itself.

`get_list_id` (lines 61-80) GETs the site's lists filtered by display name,
and its `except` block swallows everything and returns `None`; a missing or
empty `value` array also yields `None`.
-/

structure SiteUrl where
  hostname : String
  path : String

def parse_site_url (u : SiteUrl) : String × String :=
  (u.hostname, pyStripSlash u.path)

def get_site_id (oracle : String × String → Option HttpResp) (u : SiteUrl) :
    Except Unit PyVal :=
  match oracle (parse_site_url u) with
  | Option.none => .error ()
  | some r =>
    if 400 ≤ r.status then .error ()
    else
      match r.body with
      | .dict fs =>
        match pyGet fs "id" with
        | some v => .ok v
        | Option.none => .error ()
      | _ => .error ()

/-- `get_list_id`, applied to the response of the filtered lists request
(`Option.none` = the request itself raised). Every failure path of the
Python function returns `None` rather than raising. -/
def get_list_id (resp : Option HttpResp) : Option PyVal :=
  match resp with
  | Option.none => Option.none
  | some r =>
    if 400 ≤ r.status then Option.none
    else
      match r.body with
      | .dict fs =>
        match pyGetD fs "value" (.list []) with
        | .list [] => Option.none
        | .list (x :: _) =>
          match x with
          | .dict g => pyGet g "id"
          | _ => Option.none
        | _ => Option.none
      | _ => Option.none

/-- Spec-side server model: the lists endpoint, asked for lists whose display
name equals `name`, answers with the site's lists (display name, id) so
filtered, in their stored order. -/
def honestListsBody (siteLists : List (String × PyVal)) (name : String) : PyVal :=
  .dict [("value",
    .list ((siteLists.filter (fun p => p.1 == name)).map
      (fun p => .dict [("displayName", .str p.1), ("id", p.2)])))]

/-!
## Payments without a client (claim C10)

`SincronizadorAlegra.obtener_pagos_sin_cliente`
(`src/ingresos/sincronizador_alegra_sharepoint.py` lines 140-171): over the
fetched SharePoint items, an item is selected when

    (not fields.get('ID_x0020_Cliente') or
     not fields.get('Nombre_x0020_Cliente') or
     fields.get('ID_x0020_Cliente', '').strip() == '' or
     fields.get('Nombre_x0020_Cliente', '').strip() == '')

Exceptions are modelled by `Option.none`: `.strip()` on a non-string value,
or `.get` on a non-dict, raises, and the function's `except` block then
returns `[]` for the whole call.  `or` short-circuits as in Python.
-/

/-- `v.strip() == ''` — raises (`Option.none`) unless `v` is a string. -/
def stripBlank : PyVal → Option Bool
  | .str s => some (pyStrip s == "")
  | _ => Option.none

/-- The selection condition of `obtener_pagos_sin_cliente` on one item's
`fields` dict, with Python's left-to-right short-circuit evaluation. -/
def sinClienteCond (fs : List (String × PyVal)) : Option Bool :=
  if !(pyGetD fs "ID_x0020_Cliente" .null).truthy then some true
  else if !(pyGetD fs "Nombre_x0020_Cliente" .null).truthy then some true
  else
    match stripBlank (pyGetD fs "ID_x0020_Cliente" (.str "")) with
    | some true => some true
    | some false => stripBlank (pyGetD fs "Nombre_x0020_Cliente" (.str ""))
    | Option.none => Option.none

/-- The filtering loop over the fetched items; `Option.none` = some item made
the Python body raise. -/
def sinClienteLoop : List PyVal → Option (List PyVal)
  | [] => some []
  | item :: rest =>
    match item with
    | .dict ifs =>
      match pyGetD ifs "fields" (.dict []) with
      | .dict fs =>
        match sinClienteCond fs with
        | some b => (sinClienteLoop rest).map (fun l => if b then item :: l else l)
        | Option.none => Option.none
      | _ => Option.none
    | _ => Option.none

/-- `obtener_pagos_sin_cliente` restricted to the selection step: the
function's `except` block turns any raised exception into `[]`. -/
def obtener_pagos_sin_cliente (allPagos : List PyVal) : List PyVal :=
  (sinClienteLoop allPagos).getD []

/-- Spec-side: an optional string field is absent, empty, or whitespace-only. -/
def blankStrField (v : Option String) : Prop :=
  v = Option.none ∨ ∃ s, v = some s ∧ s.toList.all isPySpace = true

/-- Decidable form of `blankStrField`. -/
def blankStr : Option String → Bool
  | Option.none => true
  | some s => s.toList.all isPySpace

/-- View of an optional column value as an optional string. -/
def asStrOpt : Option PyVal → Option String
  | some (.str s) => some s
  | _ => Option.none

/-- An optional column value is absent or a string. -/
def okStrOpt : Option PyVal → Bool
  | Option.none => true
  | some (.str _) => true
  | some _ => false

/-- Spec-side: one client column of a fetched item, as an optional string
(the item is a dict whose `fields` value is a dict, and the column, when
present, is a string — the claim's assumption). -/
def clientStrField (item : PyVal) (key : String) : Option String :=
  match item with
  | .dict ifs =>
    match pyGetD ifs "fields" (.dict []) with
    | .dict fs => asStrOpt (pyGet fs key)
    | _ => Option.none
  | _ => Option.none

/-- The claim's well-formedness assumption on one fetched item: a dict whose
`fields` value is a dict, with the two client columns strings when present. -/
def itemOk (item : PyVal) : Bool :=
  match item with
  | .dict ifs =>
    match pyGetD ifs "fields" (.dict []) with
    | .dict fs =>
      okStrOpt (pyGet fs "ID_x0020_Cliente")
        && okStrOpt (pyGet fs "Nombre_x0020_Cliente")
    | _ => false
  | _ => false

/-- Spec-side: the value `obtener_pagos_por_fecha` produces from the first
non-429 response (the body on 200, `[]` on any other status). -/
def fetchOutcome : List HttpResp → PyVal
  | [] => .null
  | r :: _ => if r.status = 200 then r.body else .list []

/-!
## The payment flattener (claims C4 and C5)

`procesar_pagos_unificado_con_anticipos` (`src/ingresos/pagos_ingresos.py`
lines 169-336).  For each payment it builds the `pago_base` row dict, then:
no (truthy) invoices, categories or applied advances → append the base row;
otherwise one copy of the base per non-`None` invoice, per non-`None`
category and per non-`None` applied advance, with the child's fields and
`Tipo_Registro` overwritten.  The base dict is modelled as a structure with
the row's column names as fields (all `PyVal`-valued).
-/

structure PagoRow where
  Pago_ID : PyVal
  Fecha : PyVal
  Numero_Pago : PyVal
  Numero_Interno : PyVal
  Monto_Total : PyVal
  Tipo_Pago : PyVal
  Metodo_Pago : PyVal
  Estado_Pago : PyVal
  Observaciones_Pago : PyVal
  Anotaciones_Pago : PyVal
  Cuenta_ID : PyVal
  Cuenta_Nombre : PyVal
  Cuenta_Tipo : PyVal
  Cliente_ID : PyVal
  Cliente_Nombre : PyVal
  Cliente_Telefono : PyVal
  Cliente_Identificacion : PyVal
  Centro_Costo_ID : PyVal
  Centro_Costo_Codigo : PyVal
  Centro_Costo_Nombre : PyVal
  Factura_ID : PyVal
  Factura_Numero : PyVal
  Factura_Fecha : PyVal
  Factura_Monto_Pagado : PyVal
  Factura_Total : PyVal
  Factura_Saldo : PyVal
  Categoria_ID : PyVal
  Categoria_Nombre : PyVal
  Categoria_Precio : PyVal
  Categoria_Cantidad : PyVal
  Categoria_Total : PyVal
  Categoria_Observaciones : PyVal
  Categoria_Comportamiento : PyVal
  Anticipo_ID : PyVal
  Anticipo_Numero : PyVal
  Anticipo_Fecha : PyVal
  Anticipo_Fecha_Vencimiento : PyVal
  Anticipo_Monto_Aplicado : PyVal
  Anticipo_Total_Factura : PyVal
  Anticipo_Total_Pagado_Factura : PyVal
  Anticipo_Saldo_Factura : PyVal
  Tipo_Registro : PyVal

/-- The `pago_base` dict built from a payment's dict body (lines 185-243).
`safe_get_nested` never raises and `.get` on a dict never raises, so this is
total on dict payments. -/
def pagoBase (fs : List (String × PyVal)) : PagoRow where
  Pago_ID := pyGetD fs "id" .null
  Fecha := pyGetD fs "date" .null
  Numero_Pago := safe_get_nested (.dict fs) ["numberTemplate", "fullNumber"] (.str "")
  Numero_Interno := pyGetD fs "number" .null
  Monto_Total := pyGetD fs "amount" (.int 0)
  Tipo_Pago := pyGetD fs "type" .null
  Metodo_Pago := pyGetD fs "paymentMethod" .null
  Estado_Pago := pyGetD fs "status" .null
  Observaciones_Pago := pyGetD fs "observations" (.str "")
  Anotaciones_Pago := pyGetD fs "anotation" (.str "")
  Cuenta_ID := safe_get_nested (.dict fs) ["bankAccount", "id"] (.str "")
  Cuenta_Nombre := safe_get_nested (.dict fs) ["bankAccount", "name"] (.str "")
  Cuenta_Tipo := safe_get_nested (.dict fs) ["bankAccount", "type"] (.str "")
  Cliente_ID := safe_get_nested (.dict fs) ["client", "id"] (.str "")
  Cliente_Nombre := safe_get_nested (.dict fs) ["client", "name"] (.str "")
  Cliente_Telefono := safe_get_nested (.dict fs) ["client", "phone"] (.str "")
  Cliente_Identificacion := safe_get_nested (.dict fs) ["client", "identification"] (.str "")
  Centro_Costo_ID := safe_get_nested (.dict fs) ["costCenter", "id"] (.str "")
  Centro_Costo_Codigo := safe_get_nested (.dict fs) ["costCenter", "code"] (.str "")
  Centro_Costo_Nombre := safe_get_nested (.dict fs) ["costCenter", "name"] (.str "")
  Factura_ID := .str ""
  Factura_Numero := .str ""
  Factura_Fecha := .null
  Factura_Monto_Pagado := .int 0
  Factura_Total := .int 0
  Factura_Saldo := .int 0
  Categoria_ID := .str ""
  Categoria_Nombre := .str ""
  Categoria_Precio := .int 0
  Categoria_Cantidad := .int 0
  Categoria_Total := .int 0
  Categoria_Observaciones := .str ""
  Categoria_Comportamiento := .str ""
  Anticipo_ID := .str ""
  Anticipo_Numero := .str ""
  Anticipo_Fecha := .null
  Anticipo_Fecha_Vencimiento := .null
  Anticipo_Monto_Aplicado := .int 0
  Anticipo_Total_Factura := .int 0
  Anticipo_Total_Pagado_Factura := .int 0
  Anticipo_Saldo_Factura := .int 0
  Tipo_Registro := .str "PAGO_SIMPLE"

/-- `pago_base.copy()` updated with an invoice's fields (lines 265-274). -/
def rowFactura (base : PagoRow) (g : List (String × PyVal)) : PagoRow :=
  { base with
    Factura_ID := pyGetD g "id" .null
    Factura_Numero := pyGetD g "number" .null
    Factura_Fecha := pyGetD g "date" .null
    Factura_Monto_Pagado := pyGetD g "amount" (.int 0)
    Factura_Total := pyGetD g "total" (.int 0)
    Factura_Saldo := pyGetD g "balance" (.int 0)
    Tipo_Registro := .str "PAGO_CON_FACTURA" }

/-- `pago_base.copy()` updated with a category's fields (lines 282-292). -/
def rowCategoria (base : PagoRow) (g : List (String × PyVal)) : PagoRow :=
  { base with
    Categoria_ID := pyGetD g "id" .null
    Categoria_Nombre := pyGetD g "name" .null
    Categoria_Precio := pyGetD g "price" (.int 0)
    Categoria_Cantidad := pyGetD g "quantity" (.int 0)
    Categoria_Total := pyGetD g "total" (.int 0)
    Categoria_Observaciones := pyGetD g "observations" (.str "")
    Categoria_Comportamiento := pyGetD g "behavior" (.str "")
    Tipo_Registro := .str "PAGO_CON_CATEGORIA" }

/-- `pago_base.copy()` updated with an applied advance's fields (lines 300-311). -/
def rowAnticipo (base : PagoRow) (g : List (String × PyVal)) : PagoRow :=
  { base with
    Anticipo_ID := pyGetD g "id" .null
    Anticipo_Numero := pyGetD g "number" .null
    Anticipo_Fecha := pyGetD g "date" .null
    Anticipo_Fecha_Vencimiento := pyGetD g "dueDate" .null
    Anticipo_Monto_Aplicado := pyGetD g "amount" (.int 0)
    Anticipo_Total_Factura := pyGetD g "total" (.int 0)
    Anticipo_Total_Pagado_Factura := pyGetD g "totalPaid" (.int 0)
    Anticipo_Saldo_Factura := pyGetD g "balance" (.int 0)
    Tipo_Registro := .str "PAGO_CON_ANTICIPO" }

/-- One `for child in children` loop: `None` entries are skipped, dict entries
produce a row, any other entry raises (`child.get` on a non-dict).  Rows
appended before the exception stay appended, so they are returned alongside
the success flag. -/
def childLoop (mkRow : List (String × PyVal) → PagoRow) :
    List PyVal → List PagoRow × Bool
  | [] => ([], true)
  | .null :: rest => childLoop mkRow rest
  | .dict g :: rest =>
    let r := childLoop mkRow rest
    (mkRow g :: r.1, r.2)
  | _ :: _ => ([], false)

/-- Iterating one child collection: only truthy values are iterated (`if
invoices:`); iterating a truthy non-list raises at once or at its first
element. -/
def childIter (mkRow : List (String × PyVal) → PagoRow) (v : PyVal) :
    List PagoRow × Bool :=
  if v.truthy then
    match v with
    | .list xs => childLoop mkRow xs
    | _ => ([], false)
  else ([], true)

/-- Processing of one payment inside the `for i, payment` loop's `try` block:
the rows it appends to `pagos_unificados` and whether it completed without
raising.  A non-dict payment raises at `payment.get('id')`. -/
def procesarPago (payment : PyVal) : List PagoRow × Bool :=
  match payment with
  | .dict fs =>
    let base := pagoBase fs
    let invoices := pyGetD fs "invoices" (.list [])
    let categories := pyGetD fs "categories" (.list [])
    let advances := pyGetD fs "appliedAdvances" (.list [])
    if !invoices.truthy && !categories.truthy && !advances.truthy then
      ([base], true)
    else
      let r1 := childIter (rowFactura base) invoices
      if !r1.2 then (r1.1, false)
      else
        let r2 := childIter (rowCategoria base) categories
        if !r2.2 then (r1.1 ++ r2.1, false)
        else
          let r3 := childIter (rowAnticipo base) advances
          (r1.1 ++ r2.1 ++ r3.1, r3.2)
  | _ => ([], false)

/-- The whole flattening loop (lines 177-320): accumulated rows, count of
payments processed without error, count of payments with an error.  A `None`
payment is skipped and counted as an error before the `try` block; an
exception inside the `try` is caught, counted, and the loop continues. -/
def procesarPagosUnificado : List PyVal → List PagoRow × Nat × Nat
  | [] => ([], 0, 0)
  | p :: rest =>
    let acc := procesarPagosUnificado rest
    match p with
    | .null => (acc.1, acc.2.1, acc.2.2 + 1)
    | _ =>
      let r := procesarPago p
      if r.2 then (r.1 ++ acc.1, acc.2.1 + 1, acc.2.2)
      else (r.1 ++ acc.1, acc.2.1, acc.2.2 + 1)

/-- The per-registro upload loop `subir_pagos_sharepoint`
(`src/ingresos/pagos_ingresos.py` lines 338-372): each row is sent through
`send_pago_unificado_sharepoint`; a returned id counts as success, `None` or
a raised exception (`upload row = Option.none`) as an error, and the loop
always continues.  Returns `(success_count, error_count)`; the function's
result is `success_count > 0`. -/
def subirPagosSharepoint (upload : PagoRow → Option String) :
    List PagoRow → Nat × Nat
  | [] => (0, 0)
  | row :: rest =>
    let acc := subirPagosSharepoint upload rest
    match upload row with
    | some _ => (acc.1 + 1, acc.2)
    | Option.none => (acc.1, acc.2 + 1)

/-- Spec-side: the non-`None` dict children of a child collection value
(absent/`None`/list by the claim's hypothesis). -/
def childDicts : PyVal → List (List (String × PyVal))
  | .list xs =>
    xs.filterMap (fun x =>
      match x with
      | .dict g => some g
      | _ => Option.none)
  | _ => []

/-- A child collection value is well formed: absent (modelled by the default
`[]`), `None`, or a list of `None`s and dicts. -/
def childOk : PyVal → Bool
  | .null => true
  | .list xs =>
    xs.all (fun x =>
      match x with
      | .null => true
      | .dict _ => true
      | _ => false)
  | _ => false

/-!
## The synchronizer's own payment flattener (claim C4, second source)

`SincronizadorAlegra.procesar_pago_alegra_unificado`
(`src/ingresos/sincronizador_alegra_sharepoint.py` lines 803-903) is a
separate copy of the flattener that handles ONE payment: its `pago_base`
dict has the same columns except that it has no `Anticipo_*` fields, it
reads only `invoices` and `categories` (it never touches
`appliedAdvances`), and its `try` wraps the whole body, so any exception
makes it return `[]`, discarding rows already appended to the local list.
-/

structure PagoRowSinc where
  Pago_ID : PyVal
  Fecha : PyVal
  Numero_Pago : PyVal
  Numero_Interno : PyVal
  Monto_Total : PyVal
  Tipo_Pago : PyVal
  Metodo_Pago : PyVal
  Estado_Pago : PyVal
  Observaciones_Pago : PyVal
  Anotaciones_Pago : PyVal
  Cuenta_ID : PyVal
  Cuenta_Nombre : PyVal
  Cuenta_Tipo : PyVal
  Cliente_ID : PyVal
  Cliente_Nombre : PyVal
  Cliente_Telefono : PyVal
  Cliente_Identificacion : PyVal
  Centro_Costo_ID : PyVal
  Centro_Costo_Codigo : PyVal
  Centro_Costo_Nombre : PyVal
  Factura_ID : PyVal
  Factura_Numero : PyVal
  Factura_Fecha : PyVal
  Factura_Monto_Pagado : PyVal
  Factura_Total : PyVal
  Factura_Saldo : PyVal
  Categoria_ID : PyVal
  Categoria_Nombre : PyVal
  Categoria_Precio : PyVal
  Categoria_Cantidad : PyVal
  Categoria_Total : PyVal
  Categoria_Observaciones : PyVal
  Categoria_Comportamiento : PyVal
  Tipo_Registro : PyVal

/-- The synchronizer's `pago_base` dict (lines 809-856). -/
def pagoBaseSinc (fs : List (String × PyVal)) : PagoRowSinc where
  Pago_ID := pyGetD fs "id" .null
  Fecha := pyGetD fs "date" .null
  Numero_Pago := safe_get_nested (.dict fs) ["numberTemplate", "fullNumber"] (.str "")
  Numero_Interno := pyGetD fs "number" .null
  Monto_Total := pyGetD fs "amount" (.int 0)
  Tipo_Pago := pyGetD fs "type" .null
  Metodo_Pago := pyGetD fs "paymentMethod" .null
  Estado_Pago := pyGetD fs "status" .null
  Observaciones_Pago := pyGetD fs "observations" (.str "")
  Anotaciones_Pago := pyGetD fs "anotation" (.str "")
  Cuenta_ID := safe_get_nested (.dict fs) ["bankAccount", "id"] (.str "")
  Cuenta_Nombre := safe_get_nested (.dict fs) ["bankAccount", "name"] (.str "")
  Cuenta_Tipo := safe_get_nested (.dict fs) ["bankAccount", "type"] (.str "")
  Cliente_ID := safe_get_nested (.dict fs) ["client", "id"] (.str "")
  Cliente_Nombre := safe_get_nested (.dict fs) ["client", "name"] (.str "")
  Cliente_Telefono := safe_get_nested (.dict fs) ["client", "phone"] (.str "")
  Cliente_Identificacion := safe_get_nested (.dict fs) ["client", "identification"] (.str "")
  Centro_Costo_ID := safe_get_nested (.dict fs) ["costCenter", "id"] (.str "")
  Centro_Costo_Codigo := safe_get_nested (.dict fs) ["costCenter", "code"] (.str "")
  Centro_Costo_Nombre := safe_get_nested (.dict fs) ["costCenter", "name"] (.str "")
  Factura_ID := .str ""
  Factura_Numero := .str ""
  Factura_Fecha := .null
  Factura_Monto_Pagado := .int 0
  Factura_Total := .int 0
  Factura_Saldo := .int 0
  Categoria_ID := .str ""
  Categoria_Nombre := .str ""
  Categoria_Precio := .int 0
  Categoria_Cantidad := .int 0
  Categoria_Total := .int 0
  Categoria_Observaciones := .str ""
  Categoria_Comportamiento := .str ""
  Tipo_Registro := .str "PAGO_SIMPLE"

/-- `pago_base.copy()` updated with an invoice's fields (lines 871-879). -/
def rowFacturaSinc (base : PagoRowSinc) (g : List (String × PyVal)) : PagoRowSinc :=
  { base with
    Factura_ID := pyGetD g "id" .null
    Factura_Numero := pyGetD g "number" .null
    Factura_Fecha := pyGetD g "date" .null
    Factura_Monto_Pagado := pyGetD g "amount" (.int 0)
    Factura_Total := pyGetD g "total" (.int 0)
    Factura_Saldo := pyGetD g "balance" (.int 0)
    Tipo_Registro := .str "PAGO_CON_FACTURA" }

/-- `pago_base.copy()` updated with a category's fields (lines 886-896). -/
def rowCategoriaSinc (base : PagoRowSinc) (g : List (String × PyVal)) : PagoRowSinc :=
  { base with
    Categoria_ID := pyGetD g "id" .null
    Categoria_Nombre := pyGetD g "name" .null
    Categoria_Precio := pyGetD g "price" (.int 0)
    Categoria_Cantidad := pyGetD g "quantity" (.int 0)
    Categoria_Total := pyGetD g "total" (.int 0)
    Categoria_Observaciones := pyGetD g "observations" (.str "")
    Categoria_Comportamiento := pyGetD g "behavior" (.str "")
    Tipo_Registro := .str "PAGO_CON_CATEGORIA" }

/-- One `for child in children` loop of the synchronizer's flattener:
`None` entries skipped, dict entries produce a row, any other entry raises
(`Option.none`) — and since the whole body sits in one `try`, a raise
discards everything. -/
def childLoopSinc (mkRow : List (String × PyVal) → PagoRowSinc) :
    List PyVal → Option (List PagoRowSinc)
  | [] => some []
  | .null :: rest => childLoopSinc mkRow rest
  | .dict g :: rest => (childLoopSinc mkRow rest).map (mkRow g :: ·)
  | _ :: _ => Option.none

/-- Iterating one child collection: only truthy values are iterated
(`if invoices:`); a truthy non-list raises at once or at its first element. -/
def childIterSinc (mkRow : List (String × PyVal) → PagoRowSinc) (v : PyVal) :
    Option (List PagoRowSinc) :=
  if v.truthy then
    match v with
    | .list xs => childLoopSinc mkRow xs
    | _ => Option.none
  else some []

/-- The body of `procesar_pago_alegra_unificado` up to its `return`;
`Option.none` models a raised exception. -/
def procesarPagoSincAux (payment : PyVal) : Option (List PagoRowSinc) :=
  match payment with
  | .dict fs =>
    let base := pagoBaseSinc fs
    let invoices := pyGetD fs "invoices" (.list [])
    let categories := pyGetD fs "categories" (.list [])
    if !invoices.truthy && !categories.truthy then some [base]
    else
      match childIterSinc (rowFacturaSinc base) invoices with
      | some r1 =>
        match childIterSinc (rowCategoriaSinc base) categories with
        | some r2 => some (r1 ++ r2)
        | Option.none => Option.none
      | Option.none => Option.none
  | _ => Option.none

/-- `procesar_pago_alegra_unificado`: the `except` block turns any raised
exception into `[]`. -/
def procesarPagoSinc (payment : PyVal) : List PagoRowSinc :=
  (procesarPagoSincAux payment).getD []

/-!
## Parent-before-child upload sequencing (claim C3)

`subir_facturas_completas_sharepoint` (`src/ingresos/facturas_venta.py`
lines 356-481).  For each invoice row: POST the invoice
(`send_factura_sharepoint`); only when that returns a SharePoint id are the
item rows, retention rows and suggested-retention rows whose `Factura_ID`
equals this invoice's `ID` POSTed, each carrying that id as the lookup
value.  A row accessed without an `ID`/`Numero_Factura` column raises a
`KeyError` caught by the per-invoice `except`, producing no POST at all.

The run is modelled as the list of POST events it performs, in order;
`oracle f` is the id `send_factura_sharepoint` comes back with for invoice
row `f` (`Option.none` = the upload failed).  Pandas `==` filtering is
modelled by `PyVal.beq` on the column values.
-/

inductive ChildKind where
  | item : ChildKind
  | retencion : ChildKind
  | retencionSugerida : ChildKind
deriving DecidableEq

inductive UpEvent where
  | postFactura (row : PyVal) (res : Option String) : UpEvent
  | postChild (kind : ChildKind) (row : PyVal) (lookupId : String) : UpEvent

/-- The invoice row's `ID` column (`factura_row['ID']`). -/
def rowID : PyVal → PyVal
  | .dict fs => pyGetD fs "ID" .null
  | _ => .null

/-- Whether a child row's `Factura_ID` column equals the invoice id
(`df[df['Factura_ID'] == factura_alegra_id]`). -/
def childMatches (fid : PyVal) (c : PyVal) : Bool :=
  match c with
  | .dict g => PyVal.beq (pyGetD g "Factura_ID" .null) fid
  | _ => false

/-- Whether the per-invoice body can read the row's two columns without
raising. -/
def facturaValida : PyVal → Bool
  | .dict fs => (pyGet fs "ID").isSome && (pyGet fs "Numero_Factura").isSome
  | _ => false

/-- The POST events of one iteration of the `for index, factura_row` loop. -/
def facturaSegment (oracle : PyVal → Option String)
    (items rets sugs : List PyVal) (f : PyVal) : List UpEvent :=
  if facturaValida f then
    .postFactura f (oracle f) ::
      (match oracle f with
       | some sp =>
         ((items.filter (childMatches (rowID f))).map
            (fun c => .postChild .item c sp))
           ++ ((rets.filter (childMatches (rowID f))).map
                (fun c => .postChild .retencion c sp))
           ++ ((sugs.filter (childMatches (rowID f))).map
                (fun c => .postChild .retencionSugerida c sp))
       | Option.none => [])
  else []

/-- The whole upload pass: concatenation of the per-invoice segments. -/
def subirFacturasCompletas (oracle : PyVal → Option String)
    (facturas items rets sugs : List PyVal) : List UpEvent :=
  (facturas.map (facturaSegment oracle items rets sugs)).flatten

/-!
# Theorems
-/

theorem pyBeq_spec :
    (∀ a b : PyVal, (PyVal.beq a b = true) ↔ a = b) ∧
      ((∀ xs ys : List (String × PyVal), (PyVal.beqDict xs ys = true) ↔ xs = ys) ∧
        ∀ xs ys : List PyVal, (PyVal.beqList xs ys = true) ↔ xs = ys) := by
  refine PyVal.beq.mutual_induct
    (fun a b => (PyVal.beq a b = true) ↔ a = b)
    (fun xs ys => (PyVal.beqDict xs ys = true) ↔ xs = ys)
    (fun xs ys => (PyVal.beqList xs ys = true) ↔ xs = ys)
    ?_ ?_ ?_ ?_ ?_ ?_ ?_ ?_ ?_ ?_ ?_ ?_ ?_
  · simp [PyVal.beq]
  · intro a b; simp [PyVal.beq]
  · intro a b; simp [PyVal.beq]
  · intro a b; simp [PyVal.beq]
  · intro xs ys ih; simp [PyVal.beq, ih]
  · intro xs ys ih; simp [PyVal.beq, ih]
  · intro t x h1 h2 h3 h4 h5 h6
    cases t <;> cases x <;>
      first
        | exact (h1 rfl rfl).elim
        | exact (h2 _ _ rfl rfl).elim
        | exact (h3 _ _ rfl rfl).elim
        | exact (h4 _ _ rfl rfl).elim
        | exact (h5 _ _ rfl rfl).elim
        | exact (h6 _ _ rfl rfl).elim
        | simp [PyVal.beq]
  · simp [PyVal.beqList]
  · intro x xs y ys ih1 ih3; simp [PyVal.beqList, ih1, ih3]
  · intro t x h1 h2
    cases t <;> cases x <;>
      first
        | exact (h1 rfl rfl).elim
        | exact (h2 _ _ _ _ rfl rfl).elim
        | simp [PyVal.beqList]
  · simp [PyVal.beqDict]
  · intro k v xs l w ys ih1 ih2
    simp [PyVal.beqDict, ih1, ih2, and_assoc]
  · intro t x h1 h2
    cases t <;> cases x
    · exact (h1 rfl rfl).elim
    · simp [PyVal.beqDict]
    · simp [PyVal.beqDict]
    · exact (h2 _ _ _ _ _ _ rfl rfl).elim

theorem pyBeq_iff_eq (a b : PyVal) : PyVal.beq a b = true ↔ a = b :=
  pyBeq_spec.1 a b

theorem pyStripChars_eq_nil_iff (p : Char → Bool) (l : List Char) :
    pyStripChars p l = [] ↔ l.all p = true := by
  unfold pyStripChars
  rw [List.reverse_eq_nil_iff, List.dropWhile_eq_nil_iff, List.all_eq_true]
  constructor
  · intro h x hx
    have hsplit : l.takeWhile p ++ l.dropWhile p = l := List.takeWhile_append_dropWhile p l
    rw [← hsplit] at hx
    rcases List.mem_append.1 hx with hx1 | hx2
    · exact List.mem_takeWhile_imp hx1
    · exact h x (List.mem_reverse.2 hx2)
  · intro h x hx
    exact h x ((List.dropWhile_sublist _).subset (List.mem_reverse.1 hx))

theorem pyStrip_eq_empty_iff (s : String) :
    (pyStrip s == "") = s.toList.all isPySpace := by
  cases h : s.toList.all isPySpace with
  | true =>
    have h2 : pyStripChars isPySpace s.toList = [] := (pyStripChars_eq_nil_iff _ _).2 h
    rw [beq_iff_eq]
    show (⟨pyStripChars isPySpace s.toList⟩ : String) = ""
    rw [h2]
  | false =>
    rw [beq_eq_false_iff_ne]
    intro heq
    have h2 : pyStripChars isPySpace s.toList = [] := congrArg String.data heq
    rw [pyStripChars_eq_nil_iff] at h2
    rw [h2] at h
    cases h

/-- C9 — `safe_get_nested` is total (it never raises) and returns the nested
value exactly when every step of the key path goes through a dict containing
the key with a non-`None` value; in every other case (non-dict intermediate,
missing key, or `None` value) it returns the supplied default. -/
theorem safe_get_nested_spec (obj : PyVal) (keys : List String) (default : PyVal) :
    safe_get_nested obj keys default =
      if nestedPathOk obj keys then nestedValue obj keys else default := by
  induction keys generalizing obj with
  | nil =>
    simp only [safe_get_nested, nestedPathOk, nestedValue]
    cases h : obj.isNull <;> simp [h]
  | cons k ks ih =>
    cases obj with
    | dict fs =>
      simp only [safe_get_nested, nestedPathOk, nestedValue]
      cases hv : pyGet fs k with
      | none => simp
      | some v =>
        cases hn : v.isNull with
        | true => simp [hn]
        | false => simp [hn, ih]
    | null => simp [safe_get_nested, nestedPathOk]
    | bool b => simp [safe_get_nested, nestedPathOk]
    | int n => simp [safe_get_nested, nestedPathOk]
    | str s => simp [safe_get_nested, nestedPathOk]
    | list xs => simp [safe_get_nested, nestedPathOk]

/-- C2 counterexample — the fetcher does NOT retry exactly once: on the
response trace 429, 429, 200 it issues three requests (two retries), where
the claim allows at most two requests. -/
theorem obtener_pagos_429_counterexample :
    ¬ (∀ (rs : List HttpResp) (r : Nat × PyVal),
        obtener_pagos_por_fecha rs = some r → r.1 ≤ 2) := by
  intro h
  have h3 := h [⟨429, .list []⟩, ⟨429, .list []⟩, ⟨200, .str "pagos"⟩]
    (3, .str "pagos") rfl
  omega

/-- C2 amended — on HTTP 429 the fetcher sleeps and retries, and it repeats
this for every consecutive 429 (one further request per 429 received, with
no bound), until the first non-429 response; that response ends the call,
yielding the JSON body on 200 and `[]` on any other status.  A trace of
only 429s is consumed entirely without an answer. -/
theorem obtener_pagos_retry_per_429 (rs : List HttpResp) :
    (rs.all (fun r => r.status == 429) = true →
        obtener_pagos_por_fecha rs = Option.none)
    ∧ (rs.any (fun r => !(r.status == 429)) = true →
        obtener_pagos_por_fecha rs =
          some ((rs.takeWhile (fun r => r.status == 429)).length + 1,
            fetchOutcome (rs.dropWhile (fun r => r.status == 429)))) := by
  induction rs with
  | nil => exact ⟨fun _ => rfl, fun h => by cases h⟩
  | cons r rest ih =>
    by_cases h429 : r.status = 429
    · have h200 : ¬ r.status = 200 := by omega
      constructor
      · intro h
        have hrest : rest.all (fun r => r.status == 429) = true := by
          simp only [List.all_cons, Bool.and_eq_true] at h
          exact h.2
        simp [obtener_pagos_por_fecha, h200, h429, ih.1 hrest]
      · intro h
        have hrest : rest.any (fun r => !(r.status == 429)) = true := by
          simp only [List.any_cons, Bool.or_eq_true] at h
          rcases h with h | h
          · exfalso
            rw [h429] at h
            simp at h
          · exact h
        simp [obtener_pagos_por_fecha, h200, h429, ih.2 hrest,
          List.takeWhile_cons, List.dropWhile_cons]
    · constructor
      · intro h
        exfalso
        simp only [List.all_cons, Bool.and_eq_true, beq_iff_eq] at h
        exact h429 h.1
      · intro _
        by_cases h200 : r.status = 200
        · simp [obtener_pagos_por_fecha, h200, h429, fetchOutcome,
            List.takeWhile_cons, List.dropWhile_cons]
        · simp [obtener_pagos_por_fecha, h200, h429, fetchOutcome,
            List.takeWhile_cons, List.dropWhile_cons]

/-- C2 witness — a concrete 429-then-200 trace: two requests, body returned. -/
theorem obtener_pagos_retry_per_429_witness :
    obtener_pagos_por_fecha [⟨429, .list []⟩, ⟨200, .str "d"⟩] =
      some (2, .str "d") := by
  have h := (obtener_pagos_retry_per_429 [⟨429, .list []⟩, ⟨200, .str "d"⟩]).2 rfl
  simpa [fetchOutcome] using h

theorem probeLookups_success (post : String → PostResp) (l : List String) :
    (probeLookups post l).1 = l.any (fun f => (post f).status == 201) := by
  induction l with
  | nil => rfl
  | cons f rest ih =>
    by_cases h : (post f).status = 201
    · simp [probeLookups, h]
    · simp [probeLookups, h, ih]

theorem probeLookups_trace (post : String → PostResp) (l : List String) :
    (probeLookups post l).2
      = l.takeWhile (fun f => !((post f).status == 201))
        ++ (l.dropWhile (fun f => !((post f).status == 201))).take 1 := by
  induction l with
  | nil => rfl
  | cons f rest ih =>
    by_cases h : (post f).status = 201
    · simp [probeLookups, h, List.takeWhile_cons, List.dropWhile_cons]
    · simp [probeLookups, h, ih, List.takeWhile_cons, List.dropWhile_cons]

theorem sendItemGo_truthy (post : String → PostResp) (l : List String)
    (h : ∀ f ∈ l, (post f).status = 201 →
      (pyGetD (post f).body "id" .null).truthy = true) :
    (send_item_factura_sharepoint.go post l).truthy
      = l.any (fun f => (post f).status == 201) := by
  induction l with
  | nil => rfl
  | cons f rest ih =>
    by_cases hf : (post f).status = 201
    · have := h f (List.mem_cons_self f rest) hf
      simp [send_item_factura_sharepoint.go, hf, this]
    · have hrest : ∀ g ∈ rest, (post g).status = 201 →
          (pyGetD (post g).body "id" .null).truthy = true :=
        fun g hg => h g (List.mem_cons_of_mem f hg)
      simp [send_item_factura_sharepoint.go, hf, ih hrest]

/-- C1 — both lookup-probing uploaders try the four candidate lookup field
spellings in their fixed order, POSTing once per candidate up to and
including the first accepted one (trace = longest 201-free prefix plus that
candidate), and report success exactly when some candidate's POST returns
201.  For `send_item_factura_sharepoint`, "success" is the non-`None` id it
hands its caller, so the 201 response body is assumed to carry a truthy
`id` (which the graph API always sends on creation). -/
theorem lookup_variation_probing (post : String → PostResp)
    (h : ∀ f ∈ lookup_variations, (post f).status = 201 →
      (pyGetD (post f).body "id" .null).truthy = true) :
    (crear_item_factura_sharepoint post
        = lookup_variations.any (fun f => (post f).status == 201))
    ∧ ((probeLookups post lookup_variations).2
        = lookup_variations.takeWhile (fun f => !((post f).status == 201))
          ++ (lookup_variations.dropWhile (fun f => !((post f).status == 201))).take 1)
    ∧ ((send_item_factura_sharepoint post).truthy
        = lookup_variations.any (fun f => (post f).status == 201)) :=
  ⟨probeLookups_success post lookup_variations,
   probeLookups_trace post lookup_variations,
   sendItemGo_truthy post lookup_variations h⟩

/-- C1 witness — a remote that accepts only the third candidate spelling. -/
theorem lookup_variation_probing_witness :
    (crear_item_factura_sharepoint
        (fun f => if f == "FacturadeVentaLookupId"
          then ⟨201, [("id", .str "9")]⟩ else ⟨400, []⟩) = true)
    ∧ ((probeLookups
        (fun f => if f == "FacturadeVentaLookupId"
          then ⟨201, [("id", .str "9")]⟩ else ⟨400, []⟩) lookup_variations).2
        = ["Factura_x0020_de_x0020_VentaLookupId",
           "Factura_x0020_de_x0020_Venta",
           "FacturadeVentaLookupId"]) := by
  have h := lookup_variation_probing
    (fun f => if f == "FacturadeVentaLookupId"
      then ⟨201, [("id", .str "9")]⟩ else ⟨400, []⟩)
    (by decide)
  exact ⟨by rw [h.1]; rfl, by rw [h.2.1]; rfl⟩

/-- C6 — a list-item create operation reports success exactly when the POST
response status is 201, failure on every other status.
`crear_pago_sharepoint` returns the comparison itself;
`send_factura_sharepoint` reports the created id, so the 201 response body
is assumed to expose a truthy id (as the graph API does on creation). -/
theorem create_reports_success_iff_201 (l : String) (resp : PostResp)
    (h : resp.status = 201 → (extract_created_id resp.body).truthy = true) :
    ((crear_pago_sharepoint (some l) resp).2 = true ↔ resp.status = 201)
    ∧ ((send_factura_sharepoint (some l) resp).truthy = true ↔ resp.status = 201) := by
  constructor
  · simp [crear_pago_sharepoint]
  · by_cases h201 : resp.status = 201
    · simp [send_factura_sharepoint, h201, h h201]
    · simp [send_factura_sharepoint, h201, PyVal.truthy]

/-- C6 witness — a 201 creation succeeds, a 403 response fails. -/
theorem create_reports_success_iff_201_witness :
    ((crear_pago_sharepoint (some "L") ⟨201, [("id", .str "5")]⟩).2 = true)
    ∧ ((send_factura_sharepoint (some "L") ⟨201, [("id", .str "5")]⟩).truthy = true)
    ∧ ((crear_pago_sharepoint (some "L") ⟨403, []⟩).2 = false) := by
  refine ⟨?_, ?_, by decide⟩
  · exact (create_reports_success_iff_201 "L" ⟨201, [("id", .str "5")]⟩ (by decide)).1.mpr rfl
  · exact (create_reports_success_iff_201 "L" ⟨201, [("id", .str "5")]⟩ (by decide)).2.mpr rfl

/-- C7 counterexample — token exchange is NOT performed at most once per
process: a process that creates two payment list items through
`crear_pago_sharepoint` performs two token fetches, one per call. -/
theorem auth_cache_counterexample :
    ((crear_pago_sharepoint (some "L") ⟨201, []⟩).1
        ++ (crear_pago_sharepoint (some "L") ⟨201, []⟩).1).count .fetchToken = 2
    ∧ ¬ (2 ≤ 1) := by
  exact ⟨by decide, by omega⟩

/-- C7 amended — only the file-uploader class caches: a `SharePointUploader`
instance whose first fetches return non-empty token and site id fetches them
exactly once over any number of `_get_auth_info` calls and returns that same
cached pair from every call, while the synchronizer's list-item operations
(`crear_pago_sharepoint`) perform one fresh token fetch and one fresh
site-id fetch on every single call. -/
theorem uploader_caches_auth (ft fs : Nat → String) (k : Nat)
    (h1 : ft 0 ≠ "") (h2 : fs 0 ≠ "") :
    ((runAuthCalls ft fs k).2.1 = min k 1)
    ∧ ((runAuthCalls ft fs k).2.2 = List.replicate k (ft 0, fs 0))
    ∧ (∀ (lid : Option String) (resp : PostResp),
        (crear_pago_sharepoint lid resp).1.count .fetchToken = 1
        ∧ (crear_pago_sharepoint lid resp).1.count .fetchSite = 1) := by
  have key : ∀ n, runAuthCalls ft fs n =
      ((if n = 0 then ⟨Option.none, Option.none⟩
        else ⟨some (ft 0), some (fs 0)⟩ : UploaderState),
       min n 1, List.replicate n (ft 0, fs 0)) := by
    intro n
    induction n with
    | zero => rfl
    | succ n ih =>
      rw [runAuthCalls, ih]
      by_cases hn : n = 0
      · subst hn
        simp [get_auth_info, truthyStr, List.replicate]
      · have hft : (ft 0 != "") = true := by simpa using h1
        have hfs : (fs 0 != "") = true := by simpa using h2
        simp [hn, get_auth_info, truthyStr, hft, hfs, List.replicate_succ']
        omega
  refine ⟨by rw [key k], by rw [key k], ?_⟩
  intro lid resp
  cases lid with
  | none => exact ⟨rfl, rfl⟩
  | some l => exact ⟨rfl, rfl⟩

/-- C7 witness — three calls on one instance: one fetch, three equal results. -/
theorem uploader_caches_auth_witness :
    ((runAuthCalls (fun _ => "tok") (fun _ => "site") 3).2.1 = 1)
    ∧ ((runAuthCalls (fun _ => "tok") (fun _ => "site") 3).2.2
        = [("tok", "site"), ("tok", "site"), ("tok", "site")]) := by
  have h := uploader_caches_auth (fun _ => "tok") (fun _ => "site") 3
    (by decide) (by decide)
  exact ⟨h.1, by rw [h.2.1]; rfl⟩

theorem get_list_id_honest (siteLists : List (String × PyVal)) (name : String) :
    get_list_id (some ⟨200, honestListsBody siteLists name⟩)
      = (siteLists.find? (fun p => p.1 == name)).map (·.2) := by
  induction siteLists with
  | nil => rfl
  | cons p rest ih =>
    by_cases h : (p.1 == name) = true
    · simp only [honestListsBody, List.filter_cons, h, if_true, List.map_cons]
      have hf : (p :: rest).find? (fun q => q.1 == name) = some p := by
        simp only [List.find?]
        rw [h]
      rw [hf]
      rfl
    · have hb : (p.1 == name) = false := by
        cases hpe : (p.1 == name) with
        | true => exact absurd hpe h
        | false => rfl
      rw [show honestListsBody (p :: rest) name = honestListsBody rest name by
            simp [honestListsBody, List.filter_cons, hb]]
      have hf : (p :: rest).find? (fun q => q.1 == name)
          = rest.find? (fun q => q.1 == name) := by
        simp only [List.find?]
        rw [hb]
      rw [hf]
      exact ih

/-- C8 — the resolver maps names to remote identifiers: `get_site_id`
requests the site for the URL's hostname and slash-stripped path, returns
the response's `id` on success and raises (`Except.error`) when the request
fails (network error or status ≥ 400, and also when the body has no `id`);
`get_list_id` returns the id of the first list whose display name equals the
given name, and returns `None` without raising both when no such list
exists and when the request fails. -/
theorem resource_resolver_spec (oracle : String × String → Option HttpResp)
    (u : SiteUrl) :
    (oracle (u.hostname, pyStripSlash u.path) = Option.none →
        get_site_id oracle u = .error ())
    ∧ (∀ r, oracle (u.hostname, pyStripSlash u.path) = some r →
        (400 ≤ r.status → get_site_id oracle u = .error ())
        ∧ (∀ fs v, r.status < 400 → r.body = .dict fs → pyGet fs "id" = some v →
            get_site_id oracle u = .ok v))
    ∧ (get_list_id Option.none = Option.none)
    ∧ (∀ r : HttpResp, 400 ≤ r.status → get_list_id (some r) = Option.none)
    ∧ (∀ (siteLists : List (String × PyVal)) (name : String),
        get_list_id (some ⟨200, honestListsBody siteLists name⟩)
          = (siteLists.find? (fun p => p.1 == name)).map (·.2)) := by
  refine ⟨?_, ?_, rfl, ?_, fun L name => get_list_id_honest L name⟩
  · intro h
    simp [get_site_id, parse_site_url, h]
  · intro r hr
    constructor
    · intro h400
      simp [get_site_id, parse_site_url, hr, h400, Nat.not_lt.2 h400]
    · intro fs v hlt hbody hid
      have h400 : ¬ 400 ≤ r.status := Nat.not_le.2 hlt
      simp [get_site_id, parse_site_url, hr, h400, hbody, hid]
  · intro r h400
    simp [get_list_id, h400]

theorem sinClienteCond_spec (fs : List (String × PyVal))
    (hID : okStrOpt (pyGet fs "ID_x0020_Cliente") = true)
    (hN : okStrOpt (pyGet fs "Nombre_x0020_Cliente") = true) :
    sinClienteCond fs
      = some (blankStr (asStrOpt (pyGet fs "ID_x0020_Cliente"))
          || blankStr (asStrOpt (pyGet fs "Nombre_x0020_Cliente"))) := by
  rcases hid : pyGet fs "ID_x0020_Cliente" with _ | vID
  · simp [sinClienteCond, pyGetD, hid, PyVal.truthy, asStrOpt, blankStr]
  · rcases vID with _ | _ | _ | sID | _ | _ <;> rw [hid] at hID <;>
      simp [okStrOpt] at hID
    by_cases hsID : sID = ""
    · subst hsID
      simp [sinClienteCond, pyGetD, hid, PyVal.truthy, asStrOpt, blankStr]
    · rcases hn : pyGet fs "Nombre_x0020_Cliente" with _ | vN

      · simp [sinClienteCond, pyGetD, hid, hn, PyVal.truthy, hsID, asStrOpt, blankStr]
      · rcases vN with _ | _ | _ | sN | _ | _ <;> rw [hn] at hN <;>
          simp [okStrOpt] at hN
        by_cases hsN : sN = ""
        · subst hsN
          simp [sinClienteCond, pyGetD, hid, hn, PyVal.truthy, hsID, asStrOpt, blankStr]
        · simp only [sinClienteCond, pyGetD, hid, hn, Option.getD_some,
            PyVal.truthy, asStrOpt, blankStr, stripBlank]
          rw [← pyStrip_eq_empty_iff, ← pyStrip_eq_empty_iff]
          by_cases hstrip : (pyStrip sID == "") = true
          · simp [hsID, hsN, hstrip]
          · have : (pyStrip sID == "") = false := by
              cases hx : (pyStrip sID == "") with
              | true => exact absurd hx hstrip
              | false => rfl
            simp [hsID, hsN, this]

theorem sinClienteLoop_spec (l : List PyVal)
    (h : ∀ item ∈ l, itemOk item = true) :
    sinClienteLoop l
      = some (l.filter (fun item =>
          blankStr (clientStrField item "ID_x0020_Cliente")
            || blankStr (clientStrField item "Nombre_x0020_Cliente"))) := by
  induction l with
  | nil => rfl
  | cons item rest ih =>
    have hitem := h item (List.mem_cons_self item rest)
    have hrest : ∀ x ∈ rest, itemOk x = true :=
      fun x hx => h x (List.mem_cons_of_mem item hx)
    cases item with
    | dict ifs =>
      cases hf : pyGetD ifs "fields" (.dict []) with
      | dict fs =>
        have hok : okStrOpt (pyGet fs "ID_x0020_Cliente") = true
            ∧ okStrOpt (pyGet fs "Nombre_x0020_Cliente") = true := by
          simp only [itemOk, hf, Bool.and_eq_true] at hitem
          exact hitem
        simp only [sinClienteLoop, hf, sinClienteCond_spec fs hok.1 hok.2,
          ih hrest, Option.map_some, List.filter_cons]
        simp [clientStrField, hf]
      | null => simp [itemOk, hf] at hitem
      | bool b => simp [itemOk, hf] at hitem
      | int n => simp [itemOk, hf] at hitem
      | str s => simp [itemOk, hf] at hitem
      | list xs => simp [itemOk, hf] at hitem
    | null => simp [itemOk] at hitem
    | bool b => simp [itemOk] at hitem
    | int n => simp [itemOk] at hitem
    | str s => simp [itemOk] at hitem
    | list xs => simp [itemOk] at hitem

/-- C10 — under the assumption that each fetched item's client-ID and
client-name columns are strings when present, the synchronizer selects an
item for delete-and-recreate reconciliation exactly when its
`ID_x0020_Cliente` or its `Nombre_x0020_Cliente` column is absent, empty,
or whitespace-only; every other item is excluded. -/
theorem sin_cliente_selection (allPagos : List PyVal)
    (h : ∀ item ∈ allPagos, itemOk item = true) :
    obtener_pagos_sin_cliente allPagos
      = allPagos.filter (fun item =>
          blankStr (clientStrField item "ID_x0020_Cliente")
            || blankStr (clientStrField item "Nombre_x0020_Cliente")) := by
  rw [obtener_pagos_sin_cliente, sinClienteLoop_spec allPagos h]
  rfl

/-- C10 witness — four concrete items: blank id, whitespace name, missing
name, and a fully filled item; only the first three are selected. -/
theorem sin_cliente_selection_witness :
    obtener_pagos_sin_cliente
      [.dict [("fields", .dict [("ID_x0020_Cliente", .str ""),
          ("Nombre_x0020_Cliente", .str "ACME")])],
       .dict [("fields", .dict [("ID_x0020_Cliente", .str "7"),
          ("Nombre_x0020_Cliente", .str "  ")])],
       .dict [("fields", .dict [("ID_x0020_Cliente", .str "7")])],
       .dict [("fields", .dict [("ID_x0020_Cliente", .str "7"),
          ("Nombre_x0020_Cliente", .str "ACME")])]]
      = [.dict [("fields", .dict [("ID_x0020_Cliente", .str ""),
          ("Nombre_x0020_Cliente", .str "ACME")])],
         .dict [("fields", .dict [("ID_x0020_Cliente", .str "7"),
            ("Nombre_x0020_Cliente", .str "  ")])],
         .dict [("fields", .dict [("ID_x0020_Cliente", .str "7")])]] := by
  rw [sin_cliente_selection _ (by decide)]
  rfl

theorem procesarPagosUnificado_counts (data : List PyVal) :
    (procesarPagosUnificado data).2.1 + (procesarPagosUnificado data).2.2
      = data.length := by
  induction data with
  | nil => rfl
  | cons p rest ih =>
    cases p with
    | null => simp only [procesarPagosUnificado, List.length_cons]; omega
    | bool b =>
      simp only [procesarPagosUnificado, List.length_cons]
      by_cases h : (procesarPago (.bool b)).2 = true <;> simp [h] <;> omega
    | int n =>
      simp only [procesarPagosUnificado, List.length_cons]
      by_cases h : (procesarPago (.int n)).2 = true <;> simp [h] <;> omega
    | str s =>
      simp only [procesarPagosUnificado, List.length_cons]
      by_cases h : (procesarPago (.str s)).2 = true <;> simp [h] <;> omega
    | list xs =>
      simp only [procesarPagosUnificado, List.length_cons]
      by_cases h : (procesarPago (.list xs)).2 = true <;> simp [h] <;> omega
    | dict fs =>
      simp only [procesarPagosUnificado, List.length_cons]
      by_cases h : (procesarPago (.dict fs)).2 = true <;> simp [h] <;> omega

theorem procesarPagosUnificado_rows (data : List PyVal) :
    (procesarPagosUnificado data).1
      = (data.map (fun p => match p with
          | .null => []
          | _ => (procesarPago p).1)).flatten := by
  induction data with
  | nil => rfl
  | cons p rest ih =>
    cases p with
    | null => simpa [procesarPagosUnificado] using ih
    | bool b =>
      by_cases h : (procesarPago (.bool b)).2 = true <;>
        simp [procesarPagosUnificado, h, ih]
    | int n =>
      by_cases h : (procesarPago (.int n)).2 = true <;>
        simp [procesarPagosUnificado, h, ih]
    | str s =>
      by_cases h : (procesarPago (.str s)).2 = true <;>
        simp [procesarPagosUnificado, h, ih]
    | list xs =>
      by_cases h : (procesarPago (.list xs)).2 = true <;>
        simp [procesarPagosUnificado, h, ih]
    | dict fs =>
      by_cases h : (procesarPago (.dict fs)).2 = true <;>
        simp [procesarPagosUnificado, h, ih]

theorem subirPagos_counts (upload : PagoRow → Option String) (rows : List PagoRow) :
    (subirPagosSharepoint upload rows).1 + (subirPagosSharepoint upload rows).2
        = rows.length
    ∧ (subirPagosSharepoint upload rows).1
        = (rows.filter (fun r => (upload r).isSome)).length := by
  induction rows with
  | nil => exact ⟨rfl, rfl⟩
  | cons row rest ih =>
    cases h : upload row with
    | none =>
      refine ⟨?_, ?_⟩
      · simp only [subirPagosSharepoint, h, List.length_cons]
        omega
      · simp [subirPagosSharepoint, h, List.filter_cons, ih.2]
    | some v =>
      refine ⟨?_, ?_⟩
      · simp only [subirPagosSharepoint, h, List.length_cons]
        omega
      · simp [subirPagosSharepoint, h, List.filter_cons, ih.2]

/-- C5 — per-row error isolation in batch loops: in the payment flattener
every input payment is either counted as processed or counted as an error
(the two counters always partition the batch, so no row aborts it), and the
produced rows are the independent concatenation of each payment's own
contribution, so one payment's failure never affects another's rows.  In the
upload loop, every row is counted as a success or an error, successes being
exactly the rows whose upload returned an id. -/
theorem per_row_error_isolation (data : List PyVal)
    (upload : PagoRow → Option String) (rows : List PagoRow) :
    ((procesarPagosUnificado data).2.1 + (procesarPagosUnificado data).2.2
        = data.length)
    ∧ ((procesarPagosUnificado data).1
        = (data.map (fun p => match p with
            | .null => []
            | _ => (procesarPago p).1)).flatten)
    ∧ ((subirPagosSharepoint upload rows).1 + (subirPagosSharepoint upload rows).2
        = rows.length)
    ∧ ((subirPagosSharepoint upload rows).1
        = (rows.filter (fun r => (upload r).isSome)).length) :=
  ⟨procesarPagosUnificado_counts data, procesarPagosUnificado_rows data,
   (subirPagos_counts upload rows).1, (subirPagos_counts upload rows).2⟩

theorem childLoop_ok (mk : List (String × PyVal) → PagoRow) (xs : List PyVal)
    (h : xs.all (fun x => match x with
      | .null => true
      | .dict _ => true
      | _ => false) = true) :
    childLoop mk xs
      = ((xs.filterMap (fun x => match x with
          | .dict g => some g
          | _ => Option.none)).map mk, true) := by
  induction xs with
  | nil => rfl
  | cons x rest ih =>
    rw [List.all_cons, Bool.and_eq_true] at h
    cases x with
    | null => simpa [childLoop, List.filterMap_cons] using ih h.2
    | dict g => simp [childLoop, List.filterMap_cons, ih h.2]
    | bool b => cases h.1
    | int n => cases h.1
    | str s => cases h.1
    | list ys => cases h.1

theorem childIter_ok (mk : List (String × PyVal) → PagoRow) (v : PyVal)
    (h : childOk v = true) :
    childIter mk v = ((childDicts v).map mk, true) := by
  cases v with
  | null => rfl
  | list xs =>
    cases xs with
    | nil => rfl
    | cons x rest =>
      have hall : (x :: rest).all (fun y => match y with
          | .null => true
          | .dict _ => true
          | _ => false) = true := h
      simp only [childIter, PyVal.truthy, List.isEmpty_cons, Bool.not_false,
        if_true, childDicts]
      exact childLoop_ok mk (x :: rest) hall
  | bool b => cases h
  | int n => cases h
  | str s => cases h
  | dict fs => cases h

/-- The pagos_ingresos flattener (`procesar_pagos_unificado_con_anticipos`)
as a natural join: a payment with no invoices, no categories and no applied
advances yields exactly the single base row, and a payment with children
yields exactly one row per non-`None` invoice plus one per non-`None`
category plus one per non-`None` applied advance, each row being the
parent's base row with that child's fields filled in. -/
theorem flattener_natural_join (fs : List (String × PyVal))
    (hI : childOk (pyGetD fs "invoices" (.list [])) = true)
    (hC : childOk (pyGetD fs "categories" (.list [])) = true)
    (hA : childOk (pyGetD fs "appliedAdvances" (.list [])) = true) :
    procesarPago (.dict fs)
      = ((if !(pyGetD fs "invoices" (.list [])).truthy
            && !(pyGetD fs "categories" (.list [])).truthy
            && !(pyGetD fs "appliedAdvances" (.list [])).truthy
          then [pagoBase fs]
          else
            (childDicts (pyGetD fs "invoices" (.list []))).map
                (rowFactura (pagoBase fs))
              ++ (childDicts (pyGetD fs "categories" (.list []))).map
                  (rowCategoria (pagoBase fs))
              ++ (childDicts (pyGetD fs "appliedAdvances" (.list []))).map
                  (rowAnticipo (pagoBase fs))),
         true)
    ∧ (pagoBase fs).Tipo_Registro = .str "PAGO_SIMPLE"
    ∧ (procesarPago (.dict fs)).1.length
        = (if !(pyGetD fs "invoices" (.list [])).truthy
              && !(pyGetD fs "categories" (.list [])).truthy
              && !(pyGetD fs "appliedAdvances" (.list [])).truthy
            then 1
            else (childDicts (pyGetD fs "invoices" (.list []))).length
              + (childDicts (pyGetD fs "categories" (.list []))).length
              + (childDicts (pyGetD fs "appliedAdvances" (.list []))).length) := by
  have e1 := childIter_ok (rowFactura (pagoBase fs)) _ hI
  have e2 := childIter_ok (rowCategoria (pagoBase fs)) _ hC
  have e3 := childIter_ok (rowAnticipo (pagoBase fs)) _ hA
  have hmain : procesarPago (.dict fs)
      = ((if !(pyGetD fs "invoices" (.list [])).truthy
            && !(pyGetD fs "categories" (.list [])).truthy
            && !(pyGetD fs "appliedAdvances" (.list [])).truthy
          then [pagoBase fs]
          else
            (childDicts (pyGetD fs "invoices" (.list []))).map
                (rowFactura (pagoBase fs))
              ++ (childDicts (pyGetD fs "categories" (.list []))).map
                  (rowCategoria (pagoBase fs))
              ++ (childDicts (pyGetD fs "appliedAdvances" (.list []))).map
                  (rowAnticipo (pagoBase fs))),
         true) := by
    by_cases hc : (!(pyGetD fs "invoices" (.list [])).truthy
        && !(pyGetD fs "categories" (.list [])).truthy
        && !(pyGetD fs "appliedAdvances" (.list [])).truthy) = true
    · simp [procesarPago, hc]
    · simp [procesarPago, hc, e1, e2, e3]
  refine ⟨hmain, rfl, ?_⟩
  rw [hmain]
  by_cases hc : (!(pyGetD fs "invoices" (.list [])).truthy
      && !(pyGetD fs "categories" (.list [])).truthy
      && !(pyGetD fs "appliedAdvances" (.list [])).truthy) = true
  · simp [hc]
  · simp [hc]
    omega

theorem childLoopSinc_ok (mk : List (String × PyVal) → PagoRowSinc)
    (xs : List PyVal)
    (h : xs.all (fun x => match x with
      | .null => true
      | .dict _ => true
      | _ => false) = true) :
    childLoopSinc mk xs
      = some ((xs.filterMap (fun x => match x with
          | .dict g => some g
          | _ => Option.none)).map mk) := by
  induction xs with
  | nil => rfl
  | cons x rest ih =>
    rw [List.all_cons, Bool.and_eq_true] at h
    cases x with
    | null => simpa [childLoopSinc, List.filterMap_cons] using ih h.2
    | dict g => simp [childLoopSinc, List.filterMap_cons, ih h.2]
    | bool b => cases h.1
    | int n => cases h.1
    | str s => cases h.1
    | list ys => cases h.1

theorem childIterSinc_ok (mk : List (String × PyVal) → PagoRowSinc) (v : PyVal)
    (h : childOk v = true) :
    childIterSinc mk v = some ((childDicts v).map mk) := by
  cases v with
  | null => rfl
  | list xs =>
    cases xs with
    | nil => rfl
    | cons x rest =>
      have hall : (x :: rest).all (fun y => match y with
          | .null => true
          | .dict _ => true
          | _ => false) = true := h
      simp only [childIterSinc, PyVal.truthy, List.isEmpty_cons, Bool.not_false,
        if_true, childDicts]
      exact childLoopSinc_ok mk (x :: rest) hall
  | bool b => cases h
  | int n => cases h
  | str s => cases h
  | dict fs => cases h

/-- C4 counterexample — the claim is false at its second flattener,
`procesar_pago_alegra_unificado` (sincronizador): a payment whose only
children are two applied advances should, per the claim, yield exactly one
row per non-`None` advance (two rows, no `PAGO_SIMPLE` row), but that
flattener never reads `appliedAdvances` and emits exactly one `PAGO_SIMPLE`
row. -/
theorem flattener_anticipos_counterexample :
    ((procesarPagoSinc (.dict [("id", .int 5),
        ("appliedAdvances",
          .list [.dict [("id", .int 9)], .dict [("id", .int 10)]])])).map
          (fun r => r.Tipo_Registro) = [.str "PAGO_SIMPLE"])
    ∧ (procesarPagoSinc (.dict [("id", .int 5),
        ("appliedAdvances",
          .list [.dict [("id", .int 9)], .dict [("id", .int 10)]])])).length
        ≠ 2 := by
  exact ⟨rfl, by decide⟩

/-- C4 amended — each flattener emits one flat row per natural join of the
children it reads.  `procesar_pagos_unificado_con_anticipos`
(pagos_ingresos) joins invoices, categories AND applied advances: one
`PAGO_SIMPLE` base row when all three are empty, else one row per
non-`None` invoice plus one per non-`None` category plus one per non-`None`
applied advance, each the base row with that child's fields filled in.
`procesar_pago_alegra_unificado` (sincronizador) joins only invoices and
categories, ignoring `appliedAdvances` entirely: one `PAGO_SIMPLE` base row
when invoices and categories are both empty — even when applied advances
are present — else one row per non-`None` invoice plus one per non-`None`
category. -/
theorem flattener_join_both (fs : List (String × PyVal))
    (hI : childOk (pyGetD fs "invoices" (.list [])) = true)
    (hC : childOk (pyGetD fs "categories" (.list [])) = true)
    (hA : childOk (pyGetD fs "appliedAdvances" (.list [])) = true) :
    (procesarPago (.dict fs)
      = ((if !(pyGetD fs "invoices" (.list [])).truthy
            && !(pyGetD fs "categories" (.list [])).truthy
            && !(pyGetD fs "appliedAdvances" (.list [])).truthy
          then [pagoBase fs]
          else
            (childDicts (pyGetD fs "invoices" (.list []))).map
                (rowFactura (pagoBase fs))
              ++ (childDicts (pyGetD fs "categories" (.list []))).map
                  (rowCategoria (pagoBase fs))
              ++ (childDicts (pyGetD fs "appliedAdvances" (.list []))).map
                  (rowAnticipo (pagoBase fs))),
         true))
    ∧ ((procesarPago (.dict fs)).1.length
        = (if !(pyGetD fs "invoices" (.list [])).truthy
              && !(pyGetD fs "categories" (.list [])).truthy
              && !(pyGetD fs "appliedAdvances" (.list [])).truthy
            then 1
            else (childDicts (pyGetD fs "invoices" (.list []))).length
              + (childDicts (pyGetD fs "categories" (.list []))).length
              + (childDicts (pyGetD fs "appliedAdvances" (.list []))).length))
    ∧ (pagoBase fs).Tipo_Registro = .str "PAGO_SIMPLE"
    ∧ (procesarPagoSinc (.dict fs)
        = (if !(pyGetD fs "invoices" (.list [])).truthy
              && !(pyGetD fs "categories" (.list [])).truthy
            then [pagoBaseSinc fs]
            else
              (childDicts (pyGetD fs "invoices" (.list []))).map
                  (rowFacturaSinc (pagoBaseSinc fs))
                ++ (childDicts (pyGetD fs "categories" (.list []))).map
                    (rowCategoriaSinc (pagoBaseSinc fs))))
    ∧ ((procesarPagoSinc (.dict fs)).length
        = (if !(pyGetD fs "invoices" (.list [])).truthy
              && !(pyGetD fs "categories" (.list [])).truthy
            then 1
            else (childDicts (pyGetD fs "invoices" (.list []))).length
              + (childDicts (pyGetD fs "categories" (.list []))).length))
    ∧ (pagoBaseSinc fs).Tipo_Registro = .str "PAGO_SIMPLE" := by
  have hp := flattener_natural_join fs hI hC hA
  have e1 := childIterSinc_ok (rowFacturaSinc (pagoBaseSinc fs)) _ hI
  have e2 := childIterSinc_ok (rowCategoriaSinc (pagoBaseSinc fs)) _ hC
  have hsinc : procesarPagoSinc (.dict fs)
      = (if !(pyGetD fs "invoices" (.list [])).truthy
            && !(pyGetD fs "categories" (.list [])).truthy
          then [pagoBaseSinc fs]
          else
            (childDicts (pyGetD fs "invoices" (.list []))).map
                (rowFacturaSinc (pagoBaseSinc fs))
              ++ (childDicts (pyGetD fs "categories" (.list []))).map
                  (rowCategoriaSinc (pagoBaseSinc fs))) := by
    by_cases hc : (!(pyGetD fs "invoices" (.list [])).truthy
        && !(pyGetD fs "categories" (.list [])).truthy) = true
    · simp [procesarPagoSinc, procesarPagoSincAux, hc]
    · simp [procesarPagoSinc, procesarPagoSincAux, hc, e1, e2]
  refine ⟨hp.1, hp.2.2, rfl, hsinc, ?_, rfl⟩
  rw [hsinc]
  by_cases hc : (!(pyGetD fs "invoices" (.list [])).truthy
      && !(pyGetD fs "categories" (.list [])).truthy) = true
  · simp [hc]
  · simp [hc]

/-- C4 witness — a payment with one invoice and one applied advance: the
pagos_ingresos flattener yields the invoice row and the advance row, while
the synchronizer's flattener yields only the invoice row. -/
theorem flattener_join_both_witness :
    (procesarPago (.dict [("invoices", .list [.dict [("id", .int 1)]]),
        ("appliedAdvances", .list [.dict [("id", .int 2)]])])
      = ([rowFactura
            (pagoBase [("invoices", .list [.dict [("id", .int 1)]]),
              ("appliedAdvances", .list [.dict [("id", .int 2)]])])
            [("id", .int 1)],
          rowAnticipo
            (pagoBase [("invoices", .list [.dict [("id", .int 1)]]),
              ("appliedAdvances", .list [.dict [("id", .int 2)]])])
            [("id", .int 2)]],
         true))
    ∧ (procesarPagoSinc (.dict [("invoices", .list [.dict [("id", .int 1)]]),
        ("appliedAdvances", .list [.dict [("id", .int 2)]])])
      = [rowFacturaSinc
          (pagoBaseSinc [("invoices", .list [.dict [("id", .int 1)]]),
            ("appliedAdvances", .list [.dict [("id", .int 2)]])])
          [("id", .int 1)]]) := by
  have h := flattener_join_both
    [("invoices", .list [.dict [("id", .int 1)]]),
     ("appliedAdvances", .list [.dict [("id", .int 2)]])]
    (by decide) (by decide) (by decide)
  constructor
  · rw [h.1]; rfl
  · rw [h.2.2.2.1]; rfl

theorem pyBeq_eq_false_iff (a b : PyVal) : PyVal.beq a b = false ↔ a ≠ b := by
  constructor
  · intro h he
    have ht := (pyBeq_iff_eq a b).2 he
    rw [h] at ht
    cases ht
  · intro h
    cases hx : PyVal.beq a b with
    | false => rfl
    | true => exact absurd ((pyBeq_iff_eq a b).1 hx) h

theorem childMatches_unique (c fid fid2 : PyVal)
    (h1 : childMatches fid c = true) (h2 : childMatches fid2 c = true) :
    fid = fid2 := by
  cases c with
  | dict g =>
    rw [childMatches, pyBeq_iff_eq] at h1 h2
    rw [← h1, ← h2]
  | null => cases h1
  | bool b => cases h1
  | int n => cases h1
  | str s => cases h1
  | list xs => cases h1

theorem facturaSegment_mem (oracle : PyVal → Option String)
    (items rets sugs : List PyVal) (f : PyVal) (e : UpEvent)
    (he : e ∈ facturaSegment oracle items rets sugs f) :
    e = .postFactura f (oracle f)
    ∨ ∃ k c sp, e = .postChild k c sp ∧ oracle f = some sp
        ∧ childMatches (rowID f) c = true := by
  rw [facturaSegment] at he
  by_cases hv : facturaValida f = true
  · rw [if_pos hv] at he
    rcases List.mem_cons.1 he with h | h
    · exact Or.inl h
    · cases ho : oracle f with
      | none => rw [ho] at h; cases h
      | some sp =>
        rw [ho] at h
        right
        rcases List.mem_append.1 h with h1 | h3
        · rcases List.mem_append.1 h1 with h11 | h12
          · rcases List.mem_map.1 h11 with ⟨c, hc, hce⟩
            exact ⟨.item, c, sp, hce.symm, rfl, (List.mem_filter.1 hc).2⟩
          · rcases List.mem_map.1 h12 with ⟨c, hc, hce⟩
            exact ⟨.retencion, c, sp, hce.symm, rfl, (List.mem_filter.1 hc).2⟩
        · rcases List.mem_map.1 h3 with ⟨c, hc, hce⟩
          exact ⟨.retencionSugerida, c, sp, hce.symm, rfl, (List.mem_filter.1 hc).2⟩
  · rw [if_neg hv] at he
    cases he

theorem facturaSegment_child_index (oracle : PyVal → Option String)
    (items rets sugs : List PyVal) (f : PyVal) (n : Nat) (k : ChildKind)
    (c : PyVal) (sp : String)
    (h : (facturaSegment oracle items rets sugs f)[n]?
        = some (.postChild k c sp)) :
    0 < n
    ∧ (facturaSegment oracle items rets sugs f)[0]?
        = some (.postFactura f (some sp))
    ∧ oracle f = some sp
    ∧ childMatches (rowID f) c = true := by
  by_cases hv : facturaValida f = true
  · have hmem := List.getElem?_mem h
    rcases facturaSegment_mem oracle items rets sugs f _ hmem with h1 |
      ⟨k2, c2, sp2, heq, ho, hm⟩
    · simp at h1
    · injection heq with hk hc hsp
      subst hk; subst hc; subst hsp
      refine ⟨?_, ?_, ho, hm⟩
      · cases n with
        | zero =>
          rw [facturaSegment, if_pos hv] at h
          simp at h
        | succ n => omega
      · rw [facturaSegment, if_pos hv, ho]
        simp
  · rw [facturaSegment, if_neg hv] at h
    simp at h

theorem subirFacturas_child_after_parent (oracle : PyVal → Option String)
    (items rets sugs : List PyVal) :
    ∀ (facturas : List PyVal) (n : Nat) (k : ChildKind) (c : PyVal) (sp : String),
      (subirFacturasCompletas oracle facturas items rets sugs)[n]?
          = some (.postChild k c sp) →
      ∃ m, m < n ∧ ∃ f,
        (subirFacturasCompletas oracle facturas items rets sugs)[m]?
            = some (.postFactura f (some sp))
        ∧ oracle f = some sp ∧ childMatches (rowID f) c = true := by
  intro facturas
  induction facturas with
  | nil =>
    intro n k c sp h
    simp [subirFacturasCompletas] at h
  | cons f rest ih =>
    intro n k c sp h
    have hsplit : subirFacturasCompletas oracle (f :: rest) items rets sugs
        = facturaSegment oracle items rets sugs f
          ++ subirFacturasCompletas oracle rest items rets sugs := by
      simp [subirFacturasCompletas]
    rw [hsplit] at h
    by_cases hlt : n < (facturaSegment oracle items rets sugs f).length
    · rw [List.getElem?_append_left hlt] at h
      obtain ⟨hpos, hhead, ho, hm⟩ :=
        facturaSegment_child_index oracle items rets sugs f n k c sp h
      refine ⟨0, hpos, f, ?_, ho, hm⟩
      rw [hsplit,
        List.getElem?_append_left (Nat.lt_of_le_of_lt (Nat.zero_le n) hlt)]
      exact hhead
    · have hge : (facturaSegment oracle items rets sugs f).length ≤ n :=
        Nat.le_of_not_lt hlt
      rw [List.getElem?_append_right hge] at h
      obtain ⟨m, hmn, f2, hf2, ho2, hm2⟩ := ih _ k c sp h
      refine ⟨(facturaSegment oracle items rets sugs f).length + m, by omega,
        f2, ?_, ho2, hm2⟩
      rw [hsplit, List.getElem?_append_right (by omega)]
      simpa using hf2

theorem subirFacturas_child_from_success (oracle : PyVal → Option String)
    (facturas items rets sugs : List PyVal) (k : ChildKind) (c : PyVal)
    (sp : String)
    (h : (.postChild k c sp : UpEvent)
        ∈ subirFacturasCompletas oracle facturas items rets sugs) :
    ∃ f ∈ facturas, oracle f = some sp ∧ childMatches (rowID f) c = true := by
  rw [subirFacturasCompletas] at h
  rcases List.mem_flatten.1 h with ⟨seg, hseg, hin⟩
  rcases List.mem_map.1 hseg with ⟨f, hf, hfe⟩
  rw [← hfe] at hin
  rcases facturaSegment_mem oracle items rets sugs f _ hin with h1 |
    ⟨k2, c2, sp2, heq, ho, hm⟩
  · simp at h1
  · injection heq with hk hc hsp
    subst hk; subst hc; subst hsp
    exact ⟨f, hf, ho, hm⟩

/-- C3 — parent-before-child sequencing: in any run of the invoice upload
pass, (1) every POSTed child record follows, strictly earlier in the run, a
successful parent-invoice POST whose returned remote identifier is exactly
the lookup id the child carries, and whose invoice the child references;
(2) when invoice ids are pairwise distinct and an invoice's own POST fails,
no child record referencing that invoice is ever POSTed. -/
theorem parent_before_child (oracle : PyVal → Option String)
    (facturas items rets sugs : List PyVal)
    (huniq : facturas.Pairwise
      (fun f g => PyVal.beq (rowID f) (rowID g) = false)) :
    (∀ (n : Nat) (k : ChildKind) (c : PyVal) (sp : String),
        (subirFacturasCompletas oracle facturas items rets sugs)[n]?
            = some (.postChild k c sp) →
        ∃ m, m < n ∧ ∃ f,
          (subirFacturasCompletas oracle facturas items rets sugs)[m]?
              = some (.postFactura f (some sp))
          ∧ oracle f = some sp ∧ childMatches (rowID f) c = true)
    ∧ (∀ f ∈ facturas, oracle f = Option.none →
        ∀ (k : ChildKind) (c : PyVal) (sp : String),
          (.postChild k c sp : UpEvent)
              ∈ subirFacturasCompletas oracle facturas items rets sugs →
          childMatches (rowID f) c = false) := by
  constructor
  · intro n k c sp h
    exact subirFacturas_child_after_parent oracle items rets sugs facturas
      n k c sp h
  · intro f hf hnone k c sp hmem
    cases hx : childMatches (rowID f) c with
    | false => rfl
    | true =>
      exfalso
      obtain ⟨f2, hf2, ho2, hm2⟩ :=
        subirFacturas_child_from_success oracle facturas items rets sugs
          k c sp hmem
      have hne : f ≠ f2 := by
        intro he
        rw [he, ho2] at hnone
        cases hnone
      have hsymm : Symmetric (fun f g : PyVal =>
          PyVal.beq (rowID f) (rowID g) = false) := by
        intro x y hxy
        rw [pyBeq_eq_false_iff] at hxy ⊢
        exact fun e => hxy e.symm
      have hR := huniq.forall hsymm hf hf2 hne
      rw [pyBeq_eq_false_iff] at hR
      exact hR (childMatches_unique c _ _ hx hm2)

/-- C3 witness — one invoice whose upload succeeds with id "77" and one
whose upload fails; one matching item row each; ids pairwise distinct. -/
theorem parent_before_child_witness :
    (∀ (n : Nat) (k : ChildKind) (c : PyVal) (sp : String),
        (subirFacturasCompletas
            (fun f => if PyVal.beq (rowID f) (.int 1) then some "77"
              else Option.none)
            [.dict [("ID", .int 1), ("Numero_Factura", .str "F1")],
             .dict [("ID", .int 2), ("Numero_Factura", .str "F2")]]
            [.dict [("Factura_ID", .int 1)], .dict [("Factura_ID", .int 2)]]
            [] [])[n]?
            = some (.postChild k c sp) →
        ∃ m, m < n ∧ ∃ f,
          (subirFacturasCompletas
              (fun f => if PyVal.beq (rowID f) (.int 1) then some "77"
                else Option.none)
              [.dict [("ID", .int 1), ("Numero_Factura", .str "F1")],
               .dict [("ID", .int 2), ("Numero_Factura", .str "F2")]]
              [.dict [("Factura_ID", .int 1)], .dict [("Factura_ID", .int 2)]]
              [] [])[m]?
              = some (.postFactura f (some sp))
          ∧ (fun f => if PyVal.beq (rowID f) (.int 1) then some "77"
              else Option.none) f = some sp
          ∧ childMatches (rowID f) c = true)
    ∧ (∀ f ∈ [(.dict [("ID", .int 1), ("Numero_Factura", .str "F1")] : PyVal),
          .dict [("ID", .int 2), ("Numero_Factura", .str "F2")]],
        (fun f => if PyVal.beq (rowID f) (.int 1) then some "77"
          else Option.none) f = Option.none →
        ∀ (k : ChildKind) (c : PyVal) (sp : String),
          (.postChild k c sp : UpEvent)
              ∈ subirFacturasCompletas
                  (fun f => if PyVal.beq (rowID f) (.int 1) then some "77"
                    else Option.none)
                  [.dict [("ID", .int 1), ("Numero_Factura", .str "F1")],
                   .dict [("ID", .int 2), ("Numero_Factura", .str "F2")]]
                  [.dict [("Factura_ID", .int 1)], .dict [("Factura_ID", .int 2)]]
                  [] [] →
          childMatches (rowID f) c = false) :=
  parent_before_child
    (fun f => if PyVal.beq (rowID f) (.int 1) then some "77" else Option.none)
    [.dict [("ID", .int 1), ("Numero_Factura", .str "F1")],
     .dict [("ID", .int 2), ("Numero_Factura", .str "F2")]]
    [.dict [("Factura_ID", .int 1)], .dict [("Factura_ID", .int 2)]]
    [] [] (by decide)
